import Mathlib

/-!
Shallow embedding of the rail-nexus optimization core
(src/models/enums.py, src/models/train.py, src/models/section.py,
src/models/conflict.py, src/optimization/conflict_detector.py,
src/optimization/scheduler.py, src/optimization/optimizer.py).

Datetimes are modelled as integer minutes (`Int`); `timedelta` values are
integer minute counts.  Python `float` percentages are modelled as `ℚ`.
Python dicts keyed by segment id are modelled as association lists in key
insertion order.  The random `uuid4` conflict identifiers carry no semantic
content and are modelled as the empty string.  Human-readable description
strings are built with plain concatenation (Python float formatting such as
`:.1f` is rendered via `toString` on the integral minute value).
-/

/-- models/enums.py TrainType (IntEnum FREIGHT=1, PASSENGER=2, EXPRESS=3). -/
inductive TrainType where
  | FREIGHT
  | PASSENGER
  | EXPRESS
deriving DecidableEq, Repr

/-- `int(train_type)`: the IntEnum value. -/
def TrainType.rank : TrainType → Int
  | .FREIGHT => 1
  | .PASSENGER => 2
  | .EXPRESS => 3

/-- `train_type.name`: the enum member name. -/
def TrainType.pname : TrainType → String
  | .FREIGHT => "FREIGHT"
  | .PASSENGER => "PASSENGER"
  | .EXPRESS => "EXPRESS"

/-- models/enums.py TrainStatus. -/
inductive TrainStatus where
  | SCHEDULED
  | RUNNING
  | DELAYED
  | HELD
  | COMPLETED
deriving DecidableEq, Repr

/-- models/enums.py ConflictType. -/
inductive ConflictType where
  | SAME_TRACK
  | CROSSING
  | PLATFORM
  | HEADWAY
deriving DecidableEq, Repr

/-- models/train.py Train dataclass.  `scheduled_departure` is `Option` because
the code guards each use with `or` (a `None` departure falls back to
arrival + expected travel time). -/
structure Train where
  train_id : String
  train_number : String
  train_type : TrainType
  scheduled_arrival : Int
  scheduled_departure : Option Int
  current_position : Option String := none
  status : TrainStatus := .SCHEDULED
  actual_arrival : Option Int := none
  actual_departure : Option Int := none
  priority_score : Option Int := none
deriving DecidableEq, Repr

/-- Train.calculate_priority: `int(train_type) * 100 + (-10 if DELAYED else 0)`. -/
def Train.calculate_priority (t : Train) : Int :=
  t.train_type.rank * 100 + (if t.status = .DELAYED then -10 else 0)

/-- Train.__post_init__: fill in priority_score when not explicitly supplied. -/
def Train.postInit (t : Train) : Train :=
  if t.priority_score = none then
    { t with priority_score := some t.calculate_priority }
  else
    t

/-- Train.is_delayed: actual arrival after scheduled arrival when an actual
arrival is recorded, otherwise the DELAYED status flag. -/
def Train.is_delayed (t : Train) : Bool :=
  match t.actual_arrival with
  | some a => t.scheduled_arrival < a
  | none => t.status = .DELAYED

/-- Train.delay_minutes. -/
def Train.delay_minutes (t : Train) : Int :=
  match t.actual_arrival with
  | some a => if t.is_delayed then a - t.scheduled_arrival else 0
  | none => 0

/-- Train.expected_travel_time in minutes (EXPRESS 15, PASSENGER 20, FREIGHT 30). -/
def Train.expected_travel_time (t : Train) : Int :=
  match t.train_type with
  | .EXPRESS => 15
  | .PASSENGER => 20
  | .FREIGHT => 30

/-- Train.update_position. -/
def Train.update_position (t : Train) (new_position : String) : Train :=
  let t1 := { t with current_position := some new_position }
  if t1.status = .SCHEDULED then { t1 with status := .RUNNING } else t1

/-- Train.set_delay: positive delay marks DELAYED and back-fills actual arrival;
otherwise status becomes RUNNING. -/
def Train.set_delay (t : Train) (delay_mins : Int) : Train :=
  if delay_mins > 0 then
    let t1 := { t with status := TrainStatus.DELAYED }
    if t1.actual_arrival = none then
      { t1 with actual_arrival := some (t1.scheduled_arrival + delay_mins) }
    else
      t1
  else
    { t with status := TrainStatus.RUNNING }

/-- Sorting key used by the scheduler (`t.priority_score`; always set after
post-init, defaulted to 0 for a hypothetical unset score). -/
def Train.priority (t : Train) : Int :=
  t.priority_score.getD 0

/-- models/section.py TrackSegment. -/
structure TrackSegment where
  segment_id : String
  name : String
  length_km : ℚ
  capacity : Int := 1
  is_platform : Bool := false
  platform_capacity : Int := 1
  current_occupancy : List String := []
deriving DecidableEq, Repr

/-- Effective capacity: platform_capacity when is_platform else capacity. -/
def TrackSegment.max_capacity (s : TrackSegment) : Int :=
  if s.is_platform then s.platform_capacity else s.capacity

/-- TrackSegment.is_available. -/
def TrackSegment.is_available (s : TrackSegment) : Bool :=
  (s.current_occupancy.length : Int) < s.max_capacity

/-- models/section.py Section. -/
structure Section where
  section_id : String
  name : String
  track_segments : List TrackSegment
  min_headway_minutes : Int := 5
deriving DecidableEq, Repr

/-- Section.get_segment (dict lookup by segment id). -/
def Section.get_segment (sec : Section) (segment_id : String) : Option TrackSegment :=
  sec.track_segments.find? (fun seg => seg.segment_id = segment_id)

/-- Section.get_available_segments. -/
def Section.get_available_segments (sec : Section) : List TrackSegment :=
  sec.track_segments.filter (fun seg => seg.is_available)

/-- Section.get_platform_segments. -/
def Section.get_platform_segments (sec : Section) : List TrackSegment :=
  sec.track_segments.filter (fun seg => seg.is_platform)

/-- Section.total_capacity. -/
def Section.total_capacity (sec : Section) : Int :=
  (sec.track_segments.map (fun seg => seg.capacity)).sum

/-- Section.current_occupancy. -/
def Section.current_occupancy (sec : Section) : Int :=
  (sec.track_segments.map (fun seg => (seg.current_occupancy.length : Int))).sum

/-- Section.utilization_rate. -/
def Section.utilization_rate (sec : Section) : ℚ :=
  if sec.total_capacity > 0 then
    (sec.current_occupancy : ℚ) / (sec.total_capacity : ℚ)
  else 0

/-- models/conflict.py Conflict dataclass (uuid ids modelled as ""). -/
structure Conflict where
  conflict_id : String := ""
  conflict_type : ConflictType
  train_ids : List String
  segment_id : Option String := none
  scheduled_time : Option Int := none
  description : String := ""
  severity : Int := 1
  is_resolved : Bool := false
  resolution_action : Option String := none
  resolved_at : Option Int := none
deriving DecidableEq, Repr

/-- Conflict.affected_train_count. -/
def Conflict.affected_train_count (c : Conflict) : Nat :=
  c.train_ids.length

/-- Conflict.priority_weight. -/
def Conflict.priority_weight (c : Conflict) : Int :=
  c.severity * 10 + (c.affected_train_count : Int)

/-- Effective departure used throughout the detector and scheduler:
`scheduled_departure or (scheduled_arrival + expected_travel_time)`. -/
def Train.effective_departure (t : Train) : Int :=
  match t.scheduled_departure with
  | some d => d
  | none => t.scheduled_arrival + t.expected_travel_time

/-- Stable ascending insertion by an `Int` key: an element is placed before the
first entry with a strictly larger key, so equal keys keep input order. -/
def insertAscBy {α : Type} (key : α → Int) (x : α) : List α → List α
  | [] => [x]
  | y :: ys => if key y < key x then y :: insertAscBy key x ys else x :: y :: ys

/-- Stable sort ascending by an `Int` key (Python `sorted(key=...)`). -/
def sortAscBy {α : Type} (key : α → Int) : List α → List α
  | [] => []
  | x :: xs => insertAscBy key x (sortAscBy key xs)

/-- One entry of the detector's per-segment schedule table. -/
structure SchedEntry where
  train : Train
  start : Int
  stop : Int
deriving DecidableEq, Repr

/-- Append a value to the list held under a key of an association list,
creating the entry at the back when the key is absent (Python dict update in
insertion order). -/
def assocAppend {β : Type} : List (String × List β) → String → β → List (String × List β)
  | [], key, v => [(key, [v])]
  | p :: rest, key, v =>
    if p.1 = key then (p.1, p.2 ++ [v]) :: rest else p :: assocAppend rest key v

/-- Lookup in an association list, defaulting to the empty list. -/
def assocGet {β : Type} (tbl : List (String × List β)) (key : String) : List β :=
  match tbl.find? (fun p => p.1 = key) with
  | some p => p.2
  | none => []

/-- Group trains by current segment, recording each train's occupancy period
(_detect_track_conflicts, first loop). Unpositioned trains are skipped. -/
def segmentSchedules : List Train → List (String × List SchedEntry)
  | [] => []
  | t :: ts =>
    match t.current_position with
    | none => segmentSchedules ts
    | some sid =>
      assocAppend (segmentSchedules ts) sid
        ⟨t, t.scheduled_arrival, t.effective_departure⟩

/-- Grow the running overlap cluster from a starting entry: a later entry joins
while its start is before the running maximum end (_detect_track_conflicts,
inner j-loop). -/
def growCluster (acc : List Train) (currentEnd : Int) : List SchedEntry → List Train
  | [] => acc
  | e :: rest =>
    if e.start < currentEnd then
      growCluster (acc ++ [e.train]) (max currentEnd e.stop) rest
    else
      acc

/-- The SAME_TRACK conflict record built by the detector. -/
def mkTrackConflict (sid : String) (startTime : Int) (overlapping : List Train)
    (cap : Int) : Conflict :=
  { conflict_id := ""
    conflict_type := .SAME_TRACK
    train_ids := overlapping.map (fun t => t.train_id)
    segment_id := some sid
    scheduled_time := some startTime
    severity := min 5 (overlapping.length : Int)
    description := "Track capacity exceeded: " ++ toString overlapping.length ++
      " trains on segment " ++ sid ++ " (capacity: " ++ toString cap ++ ")" }

/-- Scan every starting index of the sorted per-segment schedule, emitting a
SAME_TRACK conflict whenever the cluster grown from it exceeds the plain
segment capacity (_detect_track_conflicts, outer i-loop). -/
def trackScan (cap : Int) (sid : String) : List SchedEntry → List Conflict
  | [] => []
  | e :: rest =>
    let overlapping := growCluster [e.train] e.stop rest
    (if (overlapping.length : Int) > cap then
       [mkTrackConflict sid e.start overlapping cap]
     else []) ++ trackScan cap sid rest

/-- ConflictDetector._detect_track_conflicts. -/
def detectTrackConflicts (sec : Section) (trains : List Train) : List Conflict :=
  (segmentSchedules trains).flatMap (fun p =>
    match sec.get_segment p.1 with
    | none => []
    | some seg => trackScan seg.capacity p.1 (sortAscBy (fun e => e.start) p.2))

/-- ConflictDetector._trains_on_same_path (both trains merely need a position). -/
def trainsOnSamePath (t1 t2 : Train) : Bool :=
  t1.current_position.isSome && t2.current_position.isSome

/-- The HEADWAY conflict record built by the detector. -/
def mkHeadwayConflict (sec : Section) (cur nxt : Train) (actual_headway : Int) : Conflict :=
  { conflict_id := ""
    conflict_type := .HEADWAY
    train_ids := [cur.train_id, nxt.train_id]
    scheduled_time := some nxt.scheduled_arrival
    severity := 3
    description := "Insufficient headway: " ++ toString actual_headway ++
      " min (required: " ++ toString sec.min_headway_minutes ++ " min)" }

/-- ConflictDetector._detect_headway_conflicts (pairwise over the
arrival-sorted list). -/
def detectHeadwayConflicts (sec : Section) : List Train → List Conflict
  | [] => []
  | [_] => []
  | cur :: nxt :: rest =>
    (if trainsOnSamePath cur nxt ∧
        nxt.scheduled_arrival - cur.effective_departure < sec.min_headway_minutes then
       [mkHeadwayConflict sec cur nxt (nxt.scheduled_arrival - cur.effective_departure)]
     else []) ++ detectHeadwayConflicts sec (nxt :: rest)

/-- ConflictDetector._detect_platform_conflicts. -/
def detectPlatformConflicts (sec : Section) (trains : List Train) : List Conflict :=
  sec.get_platform_segments.flatMap (fun pf =>
    let platform_trains := trains.filter (fun t => t.current_position = some pf.segment_id)
    if (platform_trains.length : Int) > pf.platform_capacity then
      [{ conflict_id := ""
         conflict_type := .PLATFORM
         train_ids := platform_trains.map (fun t => t.train_id)
         segment_id := some pf.segment_id
         severity := 4
         description := "Platform capacity exceeded: " ++ toString platform_trains.length ++
           " trains at platform " ++ pf.name ++ " (capacity: " ++
           toString pf.platform_capacity ++ ")" }]
    else [])

/-- ConflictDetector.detect_conflicts: track, headway and platform checks over
the arrival-sorted train list. -/
def detect_conflicts (sec : Section) (trains : List Train) : List Conflict :=
  let sorted_trains := sortAscBy (fun t => t.scheduled_arrival) trains
  detectTrackConflicts sec sorted_trains ++
    detectHeadwayConflicts sec sorted_trains ++
      detectPlatformConflicts sec sorted_trains

/-- ConflictDetector.get_conflict_summary. -/
structure ConflictSummary where
  total_conflicts : Nat
  resolved_conflicts : Nat
  pending_conflicts : Nat
  high_severity : Nat
  medium_severity : Nat
  low_severity : Nat
  same_track_conflicts : Nat
  crossing_conflicts : Nat
  platform_conflicts : Nat
  headway_conflicts : Nat
deriving DecidableEq, Repr

/-- ConflictDetector.get_conflict_summary (a fold over the conflict list). -/
def get_conflict_summary (conflicts : List Conflict) : ConflictSummary :=
  { total_conflicts := conflicts.length
    resolved_conflicts := (conflicts.filter (fun c => c.is_resolved)).length
    pending_conflicts := (conflicts.filter (fun c => !c.is_resolved)).length
    high_severity := (conflicts.filter (fun c => c.severity ≥ 4)).length
    medium_severity := (conflicts.filter (fun c => c.severity = 3)).length
    low_severity := (conflicts.filter (fun c => c.severity ≤ 2)).length
    same_track_conflicts := (conflicts.filter (fun c => c.conflict_type = .SAME_TRACK)).length
    crossing_conflicts := (conflicts.filter (fun c => c.conflict_type = .CROSSING)).length
    platform_conflicts := (conflicts.filter (fun c => c.conflict_type = .PLATFORM)).length
    headway_conflicts := (conflicts.filter (fun c => c.conflict_type = .HEADWAY)).length }

/-- One entry of the scheduler's per-segment reservation table:
`(start_time, end_time, train_id)`. -/
structure Reservation where
  start : Int
  stop : Int
  train_id : String
deriving DecidableEq, Repr

/-- The reservation table `segment_id -> [(start, end, train_id)]`. -/
def ResTable : Type := List (String × List Reservation)

/-- TrainScheduler._slot_is_available: the candidate must clear every existing
reservation by at least one minimum headway on one side. -/
def slotIsAvailable (sec : Section) (start_time end_time : Int)
    (reservations : List Reservation) : Bool :=
  let h := sec.min_headway_minutes
  reservations.all (fun r => end_time + h ≤ r.start || start_time ≥ r.stop + h)

/-- TrainScheduler._get_best_segment_for_train. -/
def getBestSegmentForTrain (sec : Section) (train : Train) : Option String :=
  let available_segments := sec.get_available_segments
  match available_segments with
  | [] => none
  | first :: _ =>
    match train.train_type with
    | .EXPRESS =>
      match available_segments.filter (fun s => !s.is_platform) with
      | s :: _ => some s.segment_id
      | [] => some first.segment_id
    | .PASSENGER =>
      match available_segments.filter (fun s => s.is_platform) with
      | s :: _ => some s.segment_id
      | [] => some first.segment_id
    | .FREIGHT => some first.segment_id

/-- The slot record returned by _find_optimal_slot. -/
structure Slot where
  segment_id : String
  arrival_time : Int
  departure_time : Int
deriving DecidableEq, Repr

/-- The forward probe loop of _find_optimal_slot
(`while search_time < max_search_time: ...`), made structural on an explicit
iteration budget: `none` means the budget ran out before the loop exited
(which is Python divergence when the headway step is not positive), and
`some r` is the loop's own outcome (`r = none`: horizon passed with no slot). -/
def searchLoop (sec : Section) (train : Train) (pref : String)
    (existing : List Reservation) (maxT : Int) : Int → Nat → Option (Option Slot)
  | _, 0 => none
  | t, fuel + 1 =>
    if t < maxT then
      let slot_end := t + train.expected_travel_time
      if slotIsAvailable sec t slot_end existing then
        some (some ⟨pref, t, slot_end⟩)
      else
        searchLoop sec train pref existing maxT (t + sec.min_headway_minutes) fuel
    else
      some none

/-- Iteration budget for the probe loop: for any positive headway the loop over
the 2-hour (120-minute) horizon performs at most 121 iterations. -/
def searchFuel : Nat := 121

/-- TrainScheduler._find_optimal_slot. -/
def findOptimalSlot (sec : Section) (train : Train) (tbl : ResTable) : Option Slot :=
  let preferred : Option String :=
    match train.current_position with
    | some p => some p
    | none => getBestSegmentForTrain sec train
  match preferred with
  | none => none
  | some pref =>
    match sec.get_segment pref with
    | none => none
    | some _ =>
      let existing := assocGet tbl pref
      let desired_start := train.scheduled_arrival
      let desired_end :=
        match train.scheduled_departure with
        | some d => d
        | none => desired_start + train.expected_travel_time
      if slotIsAvailable sec desired_start desired_end existing then
        some ⟨pref, desired_start, desired_end⟩
      else
        match searchLoop sec train pref existing (desired_start + 120) desired_start searchFuel with
        | some r => r
        | none => none

/-- TrainScheduler._create_optimized_train: rebuild the train on the new slot
(post-init runs on construction) and mark the delay when rescheduled later. -/
def createOptimizedTrain (original : Train) (s : Slot) : Train :=
  let t := Train.postInit
    { train_id := original.train_id
      train_number := original.train_number
      train_type := original.train_type
      scheduled_arrival := s.arrival_time
      scheduled_departure := some s.departure_time
      current_position := some s.segment_id
      status := original.status
      actual_arrival := original.actual_arrival
      actual_departure := original.actual_departure
      priority_score := original.priority_score }
  let delay_mins := s.arrival_time - original.scheduled_arrival
  if delay_mins > 0 then t.set_delay delay_mins else t

/-- A scheduler recommendation entry (dict with action-specific keys). -/
inductive RecAction where
  | proceed
  | delay
  | hold
deriving DecidableEq, Repr

/-- Recommendation record emitted by the scheduler / optimizer. -/
structure Recommendation where
  train_id : String
  action : RecAction
  reason : String
  delay_mins : Option Int := none
  new_arrival : Option Int := none
  recommended_delay : Option Int := none
  segment_id : Option String := none
  priority_explanation : Option String := none
deriving DecidableEq, Repr

/-- The scheduler's DELAY recommendation. -/
def delayRec (train : Train) (d : Int) (new_arrival : Int) (sid : String) : Recommendation :=
  { train_id := train.train_id
    action := .delay
    reason := "Priority-based rescheduling to resolve conflicts"
    delay_mins := some d
    new_arrival := some new_arrival
    segment_id := some sid }

/-- The scheduler's PROCEED recommendation. -/
def proceedRec (train : Train) (sid : String) : Recommendation :=
  { train_id := train.train_id
    action := .proceed
    reason := "No conflicts detected"
    segment_id := some sid }

/-- The scheduler's HOLD recommendation (fixed 15-minute penalty). -/
def holdRec (train : Train) : Recommendation :=
  { train_id := train.train_id
    action := .hold
    reason := "No available slots found"
    recommended_delay := some 15 }

/-- The scheduler's loop state across trains. -/
structure SchedState where
  optimized_trains : List Train
  recommendations : List Recommendation
  total_delay : Int
  reservations : ResTable

/-- The state at the top of optimize_schedule's loop. -/
def initSchedState : SchedState :=
  { optimized_trains := [], recommendations := [], total_delay := 0, reservations := [] }

/-- One iteration of optimize_schedule's per-train loop: find a slot, rebuild
the train, record the reservation and recommendation and accumulate delay, or
take the hold path when no slot exists. -/
def schedStep (sec : Section) (st : SchedState) (train : Train) : SchedState :=
  match findOptimalSlot sec train st.reservations with
  | some slot =>
    let optimized_train := createOptimizedTrain train slot
    let tbl := assocAppend st.reservations slot.segment_id
      ⟨slot.arrival_time, slot.departure_time, train.train_id⟩
    let d := slot.arrival_time - train.scheduled_arrival
    { optimized_trains := st.optimized_trains ++ [optimized_train]
      recommendations := st.recommendations ++
        [if d > 0 then delayRec train d slot.arrival_time slot.segment_id
         else proceedRec train slot.segment_id]
      total_delay := if d > 0 then st.total_delay + d else st.total_delay
      reservations := tbl }
  | none =>
    { optimized_trains := st.optimized_trains ++ [train]
      recommendations := st.recommendations ++ [holdRec train]
      total_delay := st.total_delay + 15
      reservations := st.reservations }

/-- Stable descending insertion by priority score: an element is placed before
the first entry whose score is not strictly larger, so equal scores keep input
order (Python `sorted(key=..., reverse=True)` is stable). -/
def insertDesc (x : Train) : List Train → List Train
  | [] => [x]
  | y :: ys => if x.priority < y.priority then y :: insertDesc x ys else x :: y :: ys

/-- Stable sort by priority score descending (optimize_schedule step 1). -/
def sortByPriorityDesc : List Train → List Train
  | [] => []
  | x :: xs => insertDesc x (sortByPriorityDesc xs)

/-- TrainScheduler._calculate_throughput_improvement. -/
def calculateThroughputImprovement (original_trains optimized_trains : List Train) : ℚ :=
  let original_conflicts := (original_trains.filter (fun t => t.is_delayed)).length
  let optimized_conflicts := (optimized_trains.filter (fun t => t.is_delayed)).length
  if original_conflicts = 0 then 0
  else
    max 0 (((original_conflicts : ℚ) - (optimized_conflicts : ℚ)) /
      (original_conflicts : ℚ) * 100)

/-- The scheduler state after processing the whole priority-sorted train list. -/
def schedFinalState (sec : Section) (trains : List Train) : SchedState :=
  (sortByPriorityDesc trains).foldl (schedStep sec) initSchedState

/-- The result record of optimize_schedule. -/
structure SchedResult where
  optimized_trains : List Train
  recommendations : List Recommendation
  total_delay_minutes : Int
  throughput_improvement : ℚ
deriving DecidableEq, Repr

/-- TrainScheduler.optimize_schedule (the conflicts argument is accepted and,
as in the source, not consulted by the greedy pass). -/
def optimize_schedule (sec : Section) (trains : List Train)
    (_conflicts : List Conflict) : SchedResult :=
  let final := schedFinalState sec trains
  { optimized_trains := final.optimized_trains
    recommendations := final.recommendations
    total_delay_minutes := final.total_delay
    throughput_improvement :=
      calculateThroughputImprovement trains final.optimized_trains }

/-- Render an optional priority score the way Python prints it. -/
def priorityScoreText : Option Int → String
  | some v => toString v
  | none => "None"

/-- TrainScheduler.generate_priority_explanation. -/
def generatePriorityExplanation (train : Train) : String :=
  let base_priority := train.train_type.rank
  let parts := ["Base priority: " ++ train.train_type.pname ++ " = " ++ toString base_priority]
  let parts := if train.is_delayed then parts ++ ["Delay penalty: -10 points"] else parts
  let parts := parts ++ ["Final priority score: " ++ priorityScoreText train.priority_score]
  String.intercalate "; " parts

/-- optimizer.py train metrics block. -/
structure TrainMetrics where
  total_trains : Nat
  delayed_trains : Nat
  on_time_percentage : ℚ
  express_trains : Nat
  passenger_trains : Nat
  freight_trains : Nat
deriving DecidableEq, Repr

/-- optimizer.py conflict metrics block. -/
structure ConflictMetrics where
  total_conflicts : Nat
  resolved_conflicts : Nat
  resolution_rate : ℚ
deriving DecidableEq, Repr

/-- optimizer.py section metrics block. -/
structure SectionMetrics where
  utilization_rate : ℚ
  available_capacity : Int
  total_capacity : Int
deriving DecidableEq, Repr

/-- optimizer.py recommendation metrics block. -/
structure RecommendationMetrics where
  proceed_recommendations : Nat
  delay_recommendations : Nat
  hold_recommendations : Nat
  total_delay_minutes : Int
  throughput_improvement : ℚ
deriving DecidableEq, Repr

/-- optimizer.py aggregate metrics. -/
structure Metrics where
  train_metrics : TrainMetrics
  conflict_metrics : ConflictMetrics
  section_metrics : SectionMetrics
  recommendation_metrics : RecommendationMetrics
deriving DecidableEq, Repr

/-- OptimizationEngine._calculate_metrics. -/
def calculateMetrics (sec : Section) (trains : List Train) (conflicts : List Conflict)
    (optimization_result : SchedResult) : Metrics :=
  let total_trains := trains.length
  let delayed_trains := (trains.filter (fun t => t.is_delayed)).length
  let total_conflicts := conflicts.length
  let resolved_conflicts := (conflicts.filter (fun c => c.is_resolved)).length
  let recs := optimization_result.recommendations
  { train_metrics :=
      { total_trains := total_trains
        delayed_trains := delayed_trains
        on_time_percentage :=
          if total_trains > 0 then
            (((total_trains : ℚ) - (delayed_trains : ℚ)) / (total_trains : ℚ)) * 100
          else 100
        express_trains := (trains.filter (fun t => t.train_type = .EXPRESS)).length
        passenger_trains := (trains.filter (fun t => t.train_type = .PASSENGER)).length
        freight_trains := (trains.filter (fun t => t.train_type = .FREIGHT)).length }
    conflict_metrics :=
      { total_conflicts := total_conflicts
        resolved_conflicts := resolved_conflicts
        resolution_rate :=
          if total_conflicts > 0 then
            ((resolved_conflicts : ℚ) / (total_conflicts : ℚ)) * 100
          else 100 }
    section_metrics :=
      { utilization_rate := sec.utilization_rate
        available_capacity := sec.total_capacity - sec.current_occupancy
        total_capacity := sec.total_capacity }
    recommendation_metrics :=
      { proceed_recommendations := (recs.filter (fun r => r.action = .proceed)).length
        delay_recommendations := (recs.filter (fun r => r.action = .delay)).length
        hold_recommendations := (recs.filter (fun r => r.action = .hold)).length
        total_delay_minutes := optimization_result.total_delay_minutes
        throughput_improvement := optimization_result.throughput_improvement } }

/-- The default PROCEED recommendation emitted when no conflicts exist. -/
def defaultProceedRec (train : Train) : Recommendation :=
  { train_id := train.train_id
    action := .proceed
    reason := "No conflicts detected"
    segment_id := train.current_position
    priority_explanation := some (generatePriorityExplanation train) }

/-- OptimizationEngine._generate_default_recommendations. -/
def generateDefaultRecommendations (trains : List Train) : SchedResult :=
  { optimized_trains := trains
    recommendations := trains.map defaultProceedRec
    total_delay_minutes := 0
    throughput_improvement := 0 }

/-- The result dict returned by OptimizationEngine.optimize.  Keys absent from
the error-path dict are `Option` fields set to `none` there. -/
structure OptResult where
  timestamp : Int
  section_id : String
  trains_analyzed : Option Nat := none
  conflicts : Option (List Conflict) := none
  conflict_summary : Option ConflictSummary := none
  optimization_result : Option SchedResult := none
  metrics : Option Metrics := none
  processing_time_ms : Int
  recommendations : Option (List Recommendation) := none
  status : String
  error_message : Option String := none
deriving DecidableEq, Repr

/-- Steps 1–3 of OptimizationEngine.optimize: run detection, then either the
trivial no-conflict result or the scheduler, propagating the first raised
exception (`Except.error`). -/
def runDetectSched (detectF : List Train → Except String (List Conflict))
    (schedF : List Train → List Conflict → Except String SchedResult)
    (trains : List Train) : Except String (List Conflict × SchedResult) :=
  match detectF trains with
  | .error e => .error e
  | .ok conflicts =>
    match (if conflicts.isEmpty then Except.ok (generateDefaultRecommendations trains)
           else schedF trains conflicts) with
    | .error e => .error e
    | .ok optimization_result => .ok (conflicts, optimization_result)

/-- OptimizationEngine.optimize, parameterized over the detection and
scheduling calls as fallible computations (`Except.error` models a Python
exception escaping that call): any such exception is caught at this boundary
and turned into the error-status result.  `start_time` and `elapsed` stand for
the wall-clock readings.  Returns the result together with the updated
optimization history (capped to the most recent 100 entries on success). -/
def optimizeE (sec : Section) (start_time elapsed : Int)
    (detectF : List Train → Except String (List Conflict))
    (schedF : List Train → List Conflict → Except String SchedResult)
    (history : List OptResult) (trains : List Train) :
    OptResult × List OptResult :=
  match runDetectSched detectF schedF trains with
  | .ok (conflicts, optimization_result) =>
    let result : OptResult :=
      { timestamp := start_time
        section_id := sec.section_id
        trains_analyzed := some trains.length
        conflicts := some conflicts
        conflict_summary := some (get_conflict_summary conflicts)
        optimization_result := some optimization_result
        metrics := some (calculateMetrics sec trains conflicts optimization_result)
        processing_time_ms := elapsed
        recommendations := some optimization_result.recommendations
        status := "success" }
    let hist1 := history ++ [result]
    let hist2 := if hist1.length > 100 then hist1.drop (hist1.length - 100) else hist1
    (result, hist2)
  | .error msg =>
    ({ timestamp := start_time
       section_id := sec.section_id
       processing_time_ms := elapsed
       status := "error"
       error_message := some msg }, history)

/-- OptimizationEngine.optimize with the concrete detector and scheduler
(which, in the embedding, are total and thus raise nothing). -/
def optimize (sec : Section) (start_time elapsed : Int)
    (history : List OptResult) (trains : List Train) :
    OptResult × List OptResult :=
  optimizeE sec start_time elapsed
    (fun ts => Except.ok (detect_conflicts sec ts))
    (fun ts cs => Except.ok (optimize_schedule sec ts cs))
    history trains

/-- The scheduler state after the first `i` trains of the processing sequence. -/
def stAfter (sec : Section) (trains : List Train) (i : Nat) : SchedState :=
  ((sortByPriorityDesc trains).take i).foldl (schedStep sec) initSchedState

/-- Two reservations are separated by at least the headway `h`: one ends at
least `h` before the other starts. -/
def separated (h : Int) (r1 r2 : Reservation) : Prop :=
  r1.stop + h ≤ r2.start ∨ r2.stop + h ≤ r1.start

/-- A reservation occupies the instant `time` (half-open occupancy interval). -/
def occupiesAt (time : Int) (r : Reservation) : Bool :=
  r.start ≤ time && time < r.stop

/-- How many reservations of a list cover the instant `time`. -/
def countAt (rs : List Reservation) (time : Int) : Nat :=
  (rs.filter (occupiesAt time)).length

/-!  Concrete fixtures used by witnesses and counterexamples. -/

/-- A section with no track segments at all. -/
def secEmpty : Section :=
  { section_id := "SEC0", name := "Empty", track_segments := [] }

/-- A train positioned on a segment id that no section fixture defines. -/
def tHold : Train := Train.postInit
  { train_id := "H1", train_number := "21", train_type := .PASSENGER,
    scheduled_arrival := 0, scheduled_departure := some 30,
    current_position := some "X" }

/-- A track segment with plain capacity 0 (not a platform). -/
def segCap0 : TrackSegment :=
  { segment_id := "S1", name := "S1", length_km := 1, capacity := 0 }

/-- A section holding only the capacity-0 segment, default headway 5. -/
def secCap0 : Section :=
  { section_id := "SECC", name := "Cap0", track_segments := [segCap0] }

/-- A train positioned on the capacity-0 segment. -/
def tCap0 : Train := Train.postInit
  { train_id := "C1", train_number := "31", train_type := .FREIGHT,
    scheduled_arrival := 0, scheduled_departure := some 30,
    current_position := some "S1" }

/-- An ordinary capacity-1 segment. -/
def segCap1 : TrackSegment :=
  { segment_id := "S1", name := "S1", length_km := 1 }

/-- A section whose minimum headway is negative (the field is a plain int). -/
def secNegH : Section :=
  { section_id := "SECN", name := "NegH", track_segments := [segCap1],
    min_headway_minutes := -1000 }

/-- First of two trains contending for the capacity-1 segment. -/
def tN1 : Train := Train.postInit
  { train_id := "N1", train_number := "41", train_type := .FREIGHT,
    scheduled_arrival := 0, scheduled_departure := some 30,
    current_position := some "S1" }

/-- Second of two trains contending for the capacity-1 segment. -/
def tN2 : Train := Train.postInit
  { train_id := "N2", train_number := "42", train_type := .FREIGHT,
    scheduled_arrival := 0, scheduled_departure := some 30,
    current_position := some "S1" }

/-- A well-formed section: one capacity-1 segment, headway 5. -/
def sec1W : Section :=
  { section_id := "SECW", name := "Std", track_segments := [segCap1] }

/-- A section whose minimum headway is zero. -/
def secH0 : Section :=
  { section_id := "SECZ", name := "ZeroH", track_segments := [segCap1],
    min_headway_minutes := 0 }

/-- An express train wanting the contested segment at time 0. -/
def tZ : Train := Train.postInit
  { train_id := "Z1", train_number := "51", train_type := .EXPRESS,
    scheduled_arrival := 0, scheduled_departure := some 15,
    current_position := some "S1" }

/-- An existing reservation blocking 0–30 on the contested segment. -/
def resZ : List Reservation := [{ start := 0, stop := 30, train_id := "T9" }]

/-- A train with no current position (skipped by every detector check). -/
def tNoPos : Train := Train.postInit
  { train_id := "Q1", train_number := "61", train_type := .PASSENGER,
    scheduled_arrival := 0, scheduled_departure := some 30 }

/-- A detection call that raises (models any exception in the Detector). -/
def detectBoom : List Train → Except String (List Conflict) :=
  fun _ => Except.error "boom"

/-- A detection call that returns one fixed conflict. -/
def detectOne : List Train → Except String (List Conflict) :=
  fun _ => Except.ok [{ conflict_type := .HEADWAY, train_ids := ["A", "B"] }]

/-- A scheduling call that raises (models any exception in the Scheduler). -/
def schedBoom : List Train → List Conflict → Except String SchedResult :=
  fun _ _ => Except.error "sched boom"

/-!  Fixtures for the priority-score claims. -/

/-- A freight train record as passed to the constructor (no explicit score). -/
def rawF : Train :=
  { train_id := "F1", train_number := "11", train_type := .FREIGHT,
    scheduled_arrival := 0, scheduled_departure := some 30 }

/-- A passenger train record as passed to the constructor (no explicit score). -/
def rawP : Train :=
  { train_id := "P1", train_number := "12", train_type := .PASSENGER,
    scheduled_arrival := 0, scheduled_departure := some 30 }

/-- A delayed express train record as passed to the constructor. -/
def rawE : Train :=
  { train_id := "E1", train_number := "13", train_type := .EXPRESS,
    scheduled_arrival := 0, scheduled_departure := some 30, status := .DELAYED }

/-- A constructed (post-init) passenger train, not delayed, score 200. -/
def tC4 : Train := Train.postInit rawP

/-!  Theorems. -/

/-- C3: a train constructed without an explicit priority_score gets
`100 * type_rank - 10` exactly when its status is DELAYED, and `100 * type_rank`
otherwise. -/
theorem priority_score_construction_formula (t : Train)
    (h : t.priority_score = none) :
    t.postInit.priority_score =
      some (100 * t.train_type.rank - (if t.status = .DELAYED then 10 else 0)) := by
  simp only [Train.postInit, h, if_pos, Train.calculate_priority]
  split <;> ring_nf

/-- Witness for C3 at the three table values: FREIGHT not delayed gives 100,
PASSENGER not delayed gives 200, EXPRESS delayed gives 290. -/
theorem priority_score_construction_formula_witness :
    rawF.postInit.priority_score = some 100 ∧
    rawP.postInit.priority_score = some 200 ∧
    rawE.postInit.priority_score = some 290 :=
  ⟨(priority_score_construction_formula rawF rfl).trans (by decide),
   (priority_score_construction_formula rawP rfl).trans (by decide),
   (priority_score_construction_formula rawE rfl).trans (by decide)⟩

/-- C4 counterexample: a passenger train constructed on time (score 200) and
then delayed through set_delay keeps score 200, although recomputation at the
new DELAYED status would give 190 — the code never recomputes the score on a
status change. -/
theorem set_delay_no_recompute_counterexample :
    (tC4.set_delay 10).status = TrainStatus.DELAYED ∧
    (tC4.set_delay 10).priority_score = some 200 ∧
    (tC4.set_delay 10).calculate_priority = 190 ∧
    (tC4.set_delay 10).priority_score ≠ some ((tC4.set_delay 10).calculate_priority) := by
  refine ⟨by decide, by decide, by decide, by decide⟩

/-- C4 amended: the priority score is fixed at construction — computed from the
formula when not supplied, the supplied value winning otherwise — and set_delay
never recomputes it, whatever status change it performs. -/
theorem priority_score_fixed_at_construction (t : Train) (d : Int) :
    (t.set_delay d).priority_score = t.priority_score ∧
    (t.priority_score = none → t.postInit.priority_score = some t.calculate_priority) ∧
    (∀ v, t.priority_score = some v → t.postInit.priority_score = some v) := by
  refine ⟨?_, ?_, ?_⟩
  · unfold Train.set_delay
    split
    · dsimp only
      split <;> rfl
    · rfl
  · intro h
    simp [Train.postInit, h]
  · intro v h
    simp [Train.postInit, h]

/-- Witness for C4's amended claim: set_delay leaves tC4's score at 200, and
construction computes the score for the raw record and keeps an explicit one. -/
theorem priority_score_fixed_at_construction_witness :
    (tC4.set_delay 10).priority_score = tC4.priority_score ∧
    rawP.postInit.priority_score = some rawP.calculate_priority ∧
    tC4.postInit.priority_score = some 200 :=
  ⟨(priority_score_fixed_at_construction tC4 10).1,
   (priority_score_fixed_at_construction rawP 10).2.1 rfl,
   (priority_score_fixed_at_construction tC4 10).2.2 200 (by decide)⟩

/-- Membership in a descending insertion. -/
theorem mem_insertDesc {x z : Train} {l : List Train} (h : z ∈ insertDesc x l) :
    z = x ∨ z ∈ l := by
  induction l with
  | nil => simpa [insertDesc] using h
  | cons y ys ih =>
    by_cases hc : x.priority < y.priority
    · simp only [insertDesc, if_pos hc, List.mem_cons] at h
      rcases h with h | h
      · exact Or.inr (List.mem_cons.mpr (Or.inl h))
      · rcases ih h with h1 | h1
        · exact Or.inl h1
        · exact Or.inr (List.mem_cons.mpr (Or.inr h1))
    · simp only [insertDesc, if_neg hc, List.mem_cons] at h
      rcases h with h | h | h
      · exact Or.inl h
      · exact Or.inr (List.mem_cons.mpr (Or.inl h))
      · exact Or.inr (List.mem_cons.mpr (Or.inr h))

/-- Descending insertion preserves the descending pairwise order. -/
theorem insertDesc_pairwise {x : Train} {l : List Train}
    (h : l.Pairwise (fun a b => b.priority ≤ a.priority)) :
    (insertDesc x l).Pairwise (fun a b => b.priority ≤ a.priority) := by
  induction l with
  | nil => simp [insertDesc]
  | cons y ys ih =>
    rcases List.pairwise_cons.mp h with ⟨hy, hys⟩
    by_cases hc : x.priority < y.priority
    · simp only [insertDesc, if_pos hc]
      refine List.pairwise_cons.mpr ⟨?_, ih hys⟩
      intro z hz
      rcases mem_insertDesc hz with rfl | hzys
      · exact le_of_lt hc
      · exact hy z hzys
    · simp only [insertDesc, if_neg hc]
      refine List.pairwise_cons.mpr ⟨?_, h⟩
      intro z hz
      rcases List.mem_cons.mp hz with rfl | hzys
      · exact le_of_not_lt hc
      · exact le_trans (hy z hzys) (le_of_not_lt hc)

/-- The scheduler's processing order is non-increasing in priority score. -/
theorem sortByPriorityDesc_pairwise (l : List Train) :
    (sortByPriorityDesc l).Pairwise (fun a b => b.priority ≤ a.priority) := by
  induction l with
  | nil => simp [sortByPriorityDesc]
  | cons x xs ih => exact insertDesc_pairwise ih

/-- Descending insertion and filtering on one score value: the inserted element
lands in front of the score class it belongs to and leaves other classes
untouched. -/
theorem insertDesc_filter (x : Train) (l : List Train) (q : Int) :
    (insertDesc x l).filter (fun t => t.priority = q) =
      (if x.priority = q then [x] else []) ++ l.filter (fun t => t.priority = q) := by
  induction l with
  | nil => by_cases hx : x.priority = q <;> simp [insertDesc, hx]
  | cons y ys ih =>
    by_cases hc : x.priority < y.priority
    · simp only [insertDesc, if_pos hc, List.filter_cons]
      by_cases hy : y.priority = q
      · have hx : ¬x.priority = q := by omega
        simp [hx, hy, ih]
      · simp [hy, ih]
    · simp only [insertDesc, if_neg hc, List.filter_cons]
      by_cases hx : x.priority = q <;> by_cases hy : y.priority = q <;>
        simp [hx, hy]

/-- Stability of the descending sort: each priority-score class appears in the
output exactly as it appears in the input. -/
theorem sortByPriorityDesc_filter (l : List Train) (q : Int) :
    (sortByPriorityDesc l).filter (fun t => t.priority = q) =
      l.filter (fun t => t.priority = q) := by
  induction l with
  | nil => rfl
  | cons x xs ih =>
    simp only [sortByPriorityDesc, insertDesc_filter, ih, List.filter_cons]
    by_cases hx : x.priority = q <;> simp [hx]

/-- Post-init does not touch the train id. -/
theorem postInit_train_id (t : Train) : t.postInit.train_id = t.train_id := by
  unfold Train.postInit
  split <;> rfl

/-- set_delay does not touch the train id. -/
theorem set_delay_train_id (t : Train) (d : Int) :
    (t.set_delay d).train_id = t.train_id := by
  unfold Train.set_delay
  split
  · dsimp only
    split <;> rfl
  · rfl

/-- The rebuilt optimized train keeps the original train id. -/
theorem createOptimizedTrain_train_id (t : Train) (s : Slot) :
    (createOptimizedTrain t s).train_id = t.train_id := by
  unfold createOptimizedTrain
  dsimp only
  split
  · rw [set_delay_train_id, postInit_train_id]
  · rw [postInit_train_id]

/-- One scheduler step appends exactly the processed train's id to the
optimized-train id sequence. -/
theorem schedStep_optimized_map (sec : Section) (st : SchedState) (t : Train) :
    ((schedStep sec st t).optimized_trains).map Train.train_id =
      st.optimized_trains.map Train.train_id ++ [t.train_id] := by
  unfold schedStep
  cases h : findOptimalSlot sec t st.reservations with
  | none => simp
  | some slot => simp [createOptimizedTrain_train_id]

/-- One scheduler step appends exactly one recommendation, carrying the
processed train's id. -/
theorem schedStep_rec_map (sec : Section) (st : SchedState) (t : Train) :
    ((schedStep sec st t).recommendations).map Recommendation.train_id =
      st.recommendations.map Recommendation.train_id ++ [t.train_id] := by
  unfold schedStep
  cases h : findOptimalSlot sec t st.reservations with
  | none => simp [holdRec]
  | some slot =>
    dsimp only
    rw [List.map_append]
    congr 1
    split <;> simp [delayRec, proceedRec]

/-- Folding the scheduler step emits optimized trains one per processed train,
in processing order. -/
theorem foldl_optimized_map (sec : Section) (l : List Train) :
    ∀ st : SchedState,
      ((l.foldl (schedStep sec) st).optimized_trains).map Train.train_id =
        st.optimized_trains.map Train.train_id ++ l.map Train.train_id := by
  induction l with
  | nil => intro st; simp
  | cons t ts ih =>
    intro st
    simp only [List.foldl_cons, ih, schedStep_optimized_map, List.map_cons]
    simp

/-- Folding the scheduler step emits recommendations one per processed train,
in processing order. -/
theorem foldl_rec_map (sec : Section) (l : List Train) :
    ∀ st : SchedState,
      ((l.foldl (schedStep sec) st).recommendations).map Recommendation.train_id =
        st.recommendations.map Recommendation.train_id ++ l.map Train.train_id := by
  induction l with
  | nil => intro st; simp
  | cons t ts ih =>
    intro st
    simp only [List.foldl_cons, ih, schedStep_rec_map, List.map_cons]
    simp

/-- C5: optimize_schedule processes trains in priority-score descending order
with a stable tie-break — each equal-score class keeps its input order — and
the emitted optimized_trains and recommendations sequences follow exactly that
processing order, one entry per train. -/
theorem scheduler_priority_order_stable (sec : Section) (trains : List Train)
    (conflicts : List Conflict) :
    (sortByPriorityDesc trains).Pairwise (fun a b => b.priority ≤ a.priority) ∧
    (∀ q : Int, (sortByPriorityDesc trains).filter (fun t => t.priority = q) =
      trains.filter (fun t => t.priority = q)) ∧
    ((optimize_schedule sec trains conflicts).optimized_trains).map Train.train_id =
      (sortByPriorityDesc trains).map Train.train_id ∧
    ((optimize_schedule sec trains conflicts).recommendations).map Recommendation.train_id =
      (sortByPriorityDesc trains).map Train.train_id := by
  refine ⟨sortByPriorityDesc_pairwise trains, fun q => sortByPriorityDesc_filter trains q, ?_, ?_⟩
  · simpa [optimize_schedule, schedFinalState, initSchedState] using
      foldl_optimized_map sec (sortByPriorityDesc trains) initSchedState
  · simpa [optimize_schedule, schedFinalState, initSchedState] using
      foldl_rec_map sec (sortByPriorityDesc trains) initSchedState

/-- Each scheduler step appends exactly one optimized train. -/
theorem schedStep_optimized_append (sec : Section) (st : SchedState) (t : Train) :
    ∃ x, (schedStep sec st t).optimized_trains = st.optimized_trains ++ [x] := by
  unfold schedStep
  cases findOptimalSlot sec t st.reservations with
  | none => exact ⟨t, rfl⟩
  | some slot => exact ⟨createOptimizedTrain t slot, rfl⟩

/-- Each scheduler step appends exactly one recommendation. -/
theorem schedStep_rec_append (sec : Section) (st : SchedState) (t : Train) :
    ∃ x, (schedStep sec st t).recommendations = st.recommendations ++ [x] := by
  unfold schedStep
  cases findOptimalSlot sec t st.reservations with
  | none => exact ⟨holdRec t, rfl⟩
  | some slot =>
    exact ⟨if slot.arrival_time - t.scheduled_arrival > 0 then
             delayRec t (slot.arrival_time - t.scheduled_arrival) slot.arrival_time slot.segment_id
           else proceedRec t slot.segment_id, rfl⟩

/-- Length of the optimized-train list after a fold of scheduler steps. -/
theorem foldl_optimized_length (sec : Section) (l : List Train) (st : SchedState) :
    ((l.foldl (schedStep sec) st).optimized_trains).length =
      st.optimized_trains.length + l.length := by
  have h := congrArg List.length (foldl_optimized_map sec l st)
  simpa using h

/-- Length of the recommendation list after a fold of scheduler steps. -/
theorem foldl_rec_length (sec : Section) (l : List Train) (st : SchedState) :
    ((l.foldl (schedStep sec) st).recommendations).length =
      st.recommendations.length + l.length := by
  have h := congrArg List.length (foldl_rec_map sec l st)
  simpa using h

/-- Scheduler steps only append to the optimized-train list: entries already
present are left in place. -/
theorem foldl_optimized_getElem_left (sec : Section) (l : List Train) :
    ∀ (st : SchedState) (i : Nat), i < st.optimized_trains.length →
      ((l.foldl (schedStep sec) st).optimized_trains)[i]? = st.optimized_trains[i]? := by
  induction l with
  | nil => intro st i _; rfl
  | cons t ts ih =>
    intro st i hi
    obtain ⟨x, hx⟩ := schedStep_optimized_append sec st t
    rw [List.foldl_cons, ih (schedStep sec st t) i (by rw [hx]; simp; omega), hx,
      List.getElem?_append_left hi]

/-- Scheduler steps only append to the recommendation list. -/
theorem foldl_rec_getElem_left (sec : Section) (l : List Train) :
    ∀ (st : SchedState) (i : Nat), i < st.recommendations.length →
      ((l.foldl (schedStep sec) st).recommendations)[i]? = st.recommendations[i]? := by
  induction l with
  | nil => intro st i _; rfl
  | cons t ts ih =>
    intro st i hi
    obtain ⟨x, hx⟩ := schedStep_rec_append sec st t
    rw [List.foldl_cons, ih (schedStep sec st t) i (by rw [hx]; simp; omega), hx,
      List.getElem?_append_left hi]

/-- Unfolding one step of the scheduler's per-train loop. -/
theorem stAfter_succ (sec : Section) (trains : List Train) (i : Nat)
    (hi : i < (sortByPriorityDesc trains).length) :
    stAfter sec trains (i + 1) =
      schedStep sec (stAfter sec trains i) (sortByPriorityDesc trains)[i] := by
  unfold stAfter
  have h : (sortByPriorityDesc trains).take (i + 1) =
      (sortByPriorityDesc trains).take i ++ [(sortByPriorityDesc trains)[i]] := by
    rw [List.take_succ, List.getElem?_eq_getElem hi]
    rfl
  rw [h, List.foldl_append]
  rfl

/-- The optimized-train list after the first `i` steps has exactly `i` entries. -/
theorem stAfter_optimized_length (sec : Section) (trains : List Train) (i : Nat)
    (hi : i ≤ (sortByPriorityDesc trains).length) :
    (stAfter sec trains i).optimized_trains.length = i := by
  unfold stAfter
  rw [foldl_optimized_length]
  simp [initSchedState]
  omega

/-- The recommendation list after the first `i` steps has exactly `i` entries. -/
theorem stAfter_rec_length (sec : Section) (trains : List Train) (i : Nat)
    (hi : i ≤ (sortByPriorityDesc trains).length) :
    (stAfter sec trains i).recommendations.length = i := by
  unfold stAfter
  rw [foldl_rec_length]
  simp [initSchedState]
  omega

/-- C6: when the slot search fails for the train processed at position `i`,
optimize_schedule returns that train unchanged at position `i` of
optimized_trains, records the HOLD recommendation (action hold, fixed
recommended_delay 15) at position `i`, and that step adds exactly 15 minutes to
the running total delay, whatever the train's actual situation. -/
theorem scheduler_hold_path (sec : Section) (trains : List Train)
    (conflicts : List Conflict) (i : Nat)
    (hi : i < (sortByPriorityDesc trains).length)
    (hslot : findOptimalSlot sec (sortByPriorityDesc trains)[i]
      (stAfter sec trains i).reservations = none) :
    (optimize_schedule sec trains conflicts).optimized_trains[i]? =
      some (sortByPriorityDesc trains)[i] ∧
    (optimize_schedule sec trains conflicts).recommendations[i]? =
      some (holdRec (sortByPriorityDesc trains)[i]) ∧
    (holdRec (sortByPriorityDesc trains)[i]).action = RecAction.hold ∧
    (holdRec (sortByPriorityDesc trains)[i]).recommended_delay = some 15 ∧
    (stAfter sec trains (i + 1)).total_delay =
      (stAfter sec trains i).total_delay + 15 := by
  have hstep := stAfter_succ sec trains i hi
  have hstep2 : stAfter sec trains (i + 1) =
      { optimized_trains :=
          (stAfter sec trains i).optimized_trains ++ [(sortByPriorityDesc trains)[i]]
        recommendations :=
          (stAfter sec trains i).recommendations ++ [holdRec (sortByPriorityDesc trains)[i]]
        total_delay := (stAfter sec trains i).total_delay + 15
        reservations := (stAfter sec trains i).reservations } := by
    rw [hstep]
    unfold schedStep
    rw [hslot]
  have hdecomp : schedFinalState sec trains =
      ((sortByPriorityDesc trains).drop (i + 1)).foldl (schedStep sec)
        (stAfter sec trains (i + 1)) := by
    unfold schedFinalState stAfter
    rw [show (sortByPriorityDesc trains) =
      ((sortByPriorityDesc trains).take (i+1)) ++ ((sortByPriorityDesc trains).drop (i+1)) by
        rw [List.take_append_drop]]
    rw [List.foldl_append]
    simp [stAfter]
  have hlen : (stAfter sec trains i).optimized_trains.length = i :=
    stAfter_optimized_length sec trains i (le_of_lt hi)
  have hlenr : (stAfter sec trains i).recommendations.length = i :=
    stAfter_rec_length sec trains i (le_of_lt hi)
  have hlen1 : (stAfter sec trains (i + 1)).optimized_trains.length = i + 1 :=
    stAfter_optimized_length sec trains (i + 1) hi
  have hlenr1 : (stAfter sec trains (i + 1)).recommendations.length = i + 1 :=
    stAfter_rec_length sec trains (i + 1) hi
  refine ⟨?_, ?_, rfl, rfl, by rw [hstep2]⟩
  · show (schedFinalState sec trains).optimized_trains[i]? = _
    rw [hdecomp, foldl_optimized_getElem_left sec _ _ i (by omega), hstep2]
    simp only
    have h2 := List.getElem?_concat_length
      (stAfter sec trains i).optimized_trains ((sortByPriorityDesc trains)[i])
    rw [hlen] at h2
    exact h2
  · show (schedFinalState sec trains).recommendations[i]? = _
    rw [hdecomp, foldl_rec_getElem_left sec _ _ i (by omega), hstep2]
    simp only
    have h2 := List.getElem?_concat_length
      (stAfter sec trains i).recommendations (holdRec (sortByPriorityDesc trains)[i])
    rw [hlenr] at h2
    exact h2

/-- Witness for C6: a train positioned on an unknown segment finds no slot, is
returned unchanged with a HOLD recommendation and a plain 15-minute penalty. -/
theorem scheduler_hold_path_witness :
    (optimize_schedule secEmpty [tHold] []).optimized_trains[0]? =
      some (sortByPriorityDesc [tHold])[0] ∧
    (optimize_schedule secEmpty [tHold] []).recommendations[0]? =
      some (holdRec (sortByPriorityDesc [tHold])[0]) ∧
    (stAfter secEmpty [tHold] 1).total_delay = (stAfter secEmpty [tHold] 0).total_delay + 15 := by
  have h := scheduler_hold_path secEmpty [tHold] [] 0 (by decide) (by decide)
  exact ⟨h.1, h.2.1, h.2.2.2.2⟩

/-- Lookup on a cons cell of the association table. -/
theorem assocGet_cons {β : Type} (p : String × List β) (rest : List (String × List β))
    (key : String) :
    assocGet (p :: rest) key = if p.1 = key then p.2 else assocGet rest key := by
  unfold assocGet
  by_cases hp : p.1 = key
  · rw [List.find?_cons_of_pos _ (by simpa using hp), if_pos hp]
  · rw [List.find?_cons_of_neg _ (by simpa using hp), if_neg hp]

/-- Lookup on the empty association table. -/
theorem assocGet_nil {β : Type} (key : String) : assocGet ([] : List (String × List β)) key = [] :=
  rfl

/-- Appending a reservation under a key extends exactly that key's list. -/
theorem assocGet_assocAppend_same {β : Type} (tbl : List (String × List β))
    (key : String) (v : β) :
    assocGet (assocAppend tbl key v) key = assocGet tbl key ++ [v] := by
  induction tbl with
  | nil => simp [assocAppend, assocGet_cons, assocGet_nil]
  | cons p rest ih =>
    by_cases hp : p.1 = key
    · simp [assocAppend, hp, assocGet_cons]
    · simp [assocAppend, hp, assocGet_cons, ih]

/-- Appending a reservation under a key leaves every other key's list alone. -/
theorem assocGet_assocAppend_other {β : Type} (tbl : List (String × List β))
    (key key' : String) (v : β) (h : key' ≠ key) :
    assocGet (assocAppend tbl key v) key' = assocGet tbl key' := by
  induction tbl with
  | nil => simp [assocAppend, assocGet_cons, assocGet_nil, Ne.symm h]
  | cons p rest ih =>
    by_cases hp : p.1 = key
    · have hq : p.1 ≠ key' := by rw [hp]; exact Ne.symm h
      simp [assocAppend, hp, assocGet_cons, hq, Ne.symm h]
    · by_cases hq : p.1 = key'
      · simp [assocAppend, hp, assocGet_cons, hq, h]
      · simp [assocAppend, hp, assocGet_cons, hq, ih]

/-- A slot produced by the probe loop targets the preferred segment and passes
the availability test against the reservations it was searched over. -/
theorem searchLoop_available (sec : Section) (train : Train) (pref : String)
    (existing : List Reservation) (maxT : Int) :
    ∀ (fuel : Nat) (t : Int) (slot : Slot),
      searchLoop sec train pref existing maxT t fuel = some (some slot) →
      slot.segment_id = pref ∧
      slotIsAvailable sec slot.arrival_time slot.departure_time existing = true := by
  intro fuel
  induction fuel with
  | zero => intro t slot h; cases h
  | succ n ih =>
    intro t slot h
    unfold searchLoop at h
    by_cases hlt : t < maxT
    · rw [if_pos hlt] at h
      dsimp only at h
      by_cases hav : slotIsAvailable sec t (t + train.expected_travel_time) existing = true
      · rw [if_pos hav] at h
        obtain rfl : (⟨pref, t, t + train.expected_travel_time⟩ : Slot) = slot :=
          Option.some_injective _ (Option.some_injective _ h)
        exact ⟨rfl, hav⟩
      · rw [if_neg hav] at h
        exact ih (t + sec.min_headway_minutes) slot h
    · rw [if_neg hlt] at h
      cases Option.some_injective _ h

/-- Any slot accepted by _find_optimal_slot passes the availability test
against the reservations already recorded for its segment. -/
theorem findOptimalSlot_available (sec : Section) (train : Train) (tbl : ResTable)
    (slot : Slot) (h : findOptimalSlot sec train tbl = some slot) :
    slotIsAvailable sec slot.arrival_time slot.departure_time
      (assocGet tbl slot.segment_id) = true := by
  unfold findOptimalSlot at h
  cases hpref : (match train.current_position with
    | some p => some p
    | none => getBestSegmentForTrain sec train) with
  | none => rw [hpref] at h; cases h
  | some pref =>
    rw [hpref] at h
    dsimp only at h
    cases hseg : sec.get_segment pref with
    | none => rw [hseg] at h; cases h
    | some seg =>
      rw [hseg] at h
      dsimp only at h
      by_cases hav : slotIsAvailable sec train.scheduled_arrival
          (match train.scheduled_departure with
           | some d => d
           | none => train.scheduled_arrival + train.expected_travel_time)
          (assocGet tbl pref) = true
      · rw [if_pos hav] at h
        obtain rfl : (⟨pref, train.scheduled_arrival, _⟩ : Slot) = slot :=
          Option.some_injective _ h
        exact hav
      · rw [if_neg hav] at h
        cases hsl : searchLoop sec train pref (assocGet tbl pref)
            (train.scheduled_arrival + 120) train.scheduled_arrival searchFuel with
        | none => rw [hsl] at h; cases h
        | some r =>
          rw [hsl] at h
          subst h
          obtain ⟨hseg2, hav2⟩ := searchLoop_available sec train pref
            (assocGet tbl pref) (train.scheduled_arrival + 120) searchFuel
            train.scheduled_arrival slot hsl
          rw [hseg2]
          exact hav2

/-- One scheduler step preserves pairwise headway separation of every
segment's reservation list: a new reservation is only recorded after passing
the availability test against that segment's existing reservations. -/
theorem schedStep_table_separated (sec : Section) (st : SchedState) (t : Train)
    (h : ∀ sid, (assocGet st.reservations sid).Pairwise (separated sec.min_headway_minutes)) :
    ∀ sid, (assocGet (schedStep sec st t).reservations sid).Pairwise
      (separated sec.min_headway_minutes) := by
  intro sid
  unfold schedStep
  cases hslot : findOptimalSlot sec t st.reservations with
  | none => exact h sid
  | some slot =>
    dsimp only
    by_cases hsid : sid = slot.segment_id
    · subst hsid
      rw [assocGet_assocAppend_same, List.pairwise_append]
      refine ⟨h _, List.pairwise_singleton _ _, ?_⟩
      intro a ha b hb
      rw [List.mem_singleton] at hb
      subst hb
      have hav := findOptimalSlot_available sec t st.reservations slot hslot
      unfold slotIsAvailable at hav
      rw [List.all_eq_true] at hav
      have hsep := hav a ha
      simp only [Bool.or_eq_true, decide_eq_true_eq, ge_iff_le] at hsep
      unfold separated
      dsimp only
      rcases hsep with h1 | h1
      · exact Or.inr h1
      · exact Or.inl h1
    · rw [assocGet_assocAppend_other _ _ _ _ hsid]
      exact h sid

/-- Folding scheduler steps preserves pairwise headway separation. -/
theorem foldl_table_separated (sec : Section) (l : List Train) :
    ∀ st : SchedState,
      (∀ sid, (assocGet st.reservations sid).Pairwise (separated sec.min_headway_minutes)) →
      ∀ sid, (assocGet ((l.foldl (schedStep sec) st)).reservations sid).Pairwise
        (separated sec.min_headway_minutes) := by
  induction l with
  | nil => intro st h; exact h
  | cons t ts ih => intro st h; exact ih _ (schedStep_table_separated sec st t h)

/-- After the whole scheduling pass, every segment's accepted reservations are
pairwise separated by at least the minimum headway. -/
theorem schedFinalState_table_separated (sec : Section) (trains : List Train) :
    ∀ sid, (assocGet (schedFinalState sec trains).reservations sid).Pairwise
      (separated sec.min_headway_minutes) := by
  unfold schedFinalState
  refine foldl_table_separated sec _ initSchedState (fun sid => ?_)
  rw [show initSchedState.reservations = [] from rfl, assocGet_nil]
  exact List.Pairwise.nil

/-- With a nonnegative headway, pairwise-separated reservations overlap at no
instant: at most one covers any given time. -/
theorem countAt_le_one_of_separated (h : Int) (hh : 0 ≤ h) (rs : List Reservation)
    (hp : rs.Pairwise (separated h)) (time : Int) : countAt rs time ≤ 1 := by
  induction rs with
  | nil => simp [countAt]
  | cons r rest ih =>
    rcases List.pairwise_cons.mp hp with ⟨hr, hrest⟩
    unfold countAt
    rw [List.filter_cons]
    by_cases hocc : occupiesAt time r = true
    · rw [if_pos hocc]
      have hnone : rest.filter (occupiesAt time) = [] := by
        rw [List.filter_eq_nil_iff]
        intro r2 hr2
        have hsep := hr r2 hr2
        unfold separated at hsep
        unfold occupiesAt at hocc ⊢
        simp only [Bool.and_eq_true, decide_eq_true_eq] at hocc ⊢
        intro hcon
        omega
      rw [hnone]
      simp
    · rw [if_neg hocc]
      exact ih hrest

/-- C1 (amended): after optimize_schedule, every pair of accepted reservations
on the same segment is separated by at least the minimum headway; consequently,
whenever the headway is nonnegative and the segment's effective capacity is at
least one, the number of accepted occupancy intervals covering any instant
never exceeds that segment's effective capacity. -/
theorem scheduler_capacity_respected (sec : Section) (trains : List Train) (sid : String) :
    (assocGet (schedFinalState sec trains).reservations sid).Pairwise
      (separated sec.min_headway_minutes) ∧
    (0 ≤ sec.min_headway_minutes →
      ∀ seg, sec.get_segment sid = some seg → 1 ≤ seg.max_capacity →
        ∀ time, (countAt (assocGet (schedFinalState sec trains).reservations sid) time : Int) ≤
          seg.max_capacity) := by
  refine ⟨schedFinalState_table_separated sec trains sid, ?_⟩
  intro hh seg _ hcap time
  have h1 := countAt_le_one_of_separated sec.min_headway_minutes hh
    (assocGet (schedFinalState sec trains).reservations sid)
    (schedFinalState_table_separated sec trains sid) time
  omega

/-- Witness for C1's amended statement on a one-segment section with capacity 1
and headway 5. -/
theorem scheduler_capacity_respected_witness :
    (assocGet (schedFinalState sec1W [tCap0]).reservations "S1").Pairwise
      (separated sec1W.min_headway_minutes) ∧
    (countAt (assocGet (schedFinalState sec1W [tCap0]).reservations "S1") 0 : Int) ≤
      segCap1.max_capacity :=
  ⟨(scheduler_capacity_respected sec1W [tCap0] "S1").1,
   (scheduler_capacity_respected sec1W [tCap0] "S1").2 (by decide) segCap1 (by decide)
     (by decide) 0⟩

/-- C1 counterexample: the scheduler never consults segment capacity.  On a
capacity-0 segment a single train is accepted (recommendation PROCEED, one
reservation covering instant 0, exceeding capacity 0), and with a negative
minimum headway two trains are both accepted over the same instant on a
capacity-1 segment. -/
theorem scheduler_capacity_counterexample :
    countAt (assocGet (schedFinalState secCap0 [tCap0]).reservations "S1") 0 = 1 ∧
    (secCap0.get_segment "S1").map TrackSegment.max_capacity = some 0 ∧
    (schedFinalState secCap0 [tCap0]).recommendations.map Recommendation.action =
      [RecAction.proceed] ∧
    countAt (assocGet (schedFinalState secNegH [tN1, tN2]).reservations "S1") 0 = 2 ∧
    (secNegH.get_segment "S1").map TrackSegment.max_capacity = some 1 ∧
    (schedFinalState secNegH [tN1, tN2]).recommendations.map Recommendation.action =
      [RecAction.proceed, RecAction.proceed] := by
  refine ⟨by decide, by decide, by decide, by decide, by decide, by decide⟩

/-- With a positive headway the probe loop always exits within the iteration
budget: each iteration advances the probe time by at least one minute, so the
budget `(maxT - t).toNat + 1` is never exhausted. -/
theorem searchLoop_terminates (sec : Section) (train : Train) (pref : String)
    (existing : List Reservation) (maxT : Int)
    (hpos : 1 ≤ sec.min_headway_minutes) :
    ∀ (fuel : Nat) (t : Int), (maxT - t).toNat < fuel →
      searchLoop sec train pref existing maxT t fuel ≠ none := by
  intro fuel
  induction fuel with
  | zero => intro t h; omega
  | succ n ih =>
    intro t hf
    unfold searchLoop
    by_cases hlt : t < maxT
    · rw [if_pos hlt]
      dsimp only
      by_cases hav : slotIsAvailable sec t (t + train.expected_travel_time) existing = true
      · rw [if_pos hav]
        simp
      · rw [if_neg hav]
        exact ih (t + sec.min_headway_minutes) (by omega)
    · rw [if_neg hlt]
      simp

/-- With a nonnegative headway every slot found by the probe loop lies at or
after the probe start and strictly inside the search horizon, on the preferred
segment. -/
theorem searchLoop_probe_bounds (sec : Section) (train : Train) (pref : String)
    (existing : List Reservation) (maxT : Int)
    (hpos : 0 ≤ sec.min_headway_minutes) :
    ∀ (fuel : Nat) (t : Int) (slot : Slot),
      searchLoop sec train pref existing maxT t fuel = some (some slot) →
      t ≤ slot.arrival_time ∧ slot.arrival_time < maxT ∧ slot.segment_id = pref := by
  intro fuel
  induction fuel with
  | zero => intro t slot h; cases h
  | succ n ih =>
    intro t slot h
    unfold searchLoop at h
    by_cases hlt : t < maxT
    · rw [if_pos hlt] at h
      dsimp only at h
      by_cases hav : slotIsAvailable sec t (t + train.expected_travel_time) existing = true
      · rw [if_pos hav] at h
        obtain rfl : (⟨pref, t, t + train.expected_travel_time⟩ : Slot) = slot :=
          Option.some_injective _ (Option.some_injective _ h)
        exact ⟨le_refl t, hlt, rfl⟩
      · rw [if_neg hav] at h
        obtain ⟨h1, h2, h3⟩ := ih (t + sec.min_headway_minutes) slot h
        exact ⟨by omega, h2, h3⟩
    · rw [if_neg hlt] at h
      cases Option.some_injective _ h

/-- C9 (amended): provided the section's minimum headway is at least one
minute, the forward slot search of _find_optimal_slot terminates — the probe
loop, run with the scheduler's iteration budget, always returns a verdict — and
every probe it accepts lies within the 2-hour horizon starting at the desired
arrival. -/
theorem scheduler_slot_search_terminates (sec : Section) (train : Train)
    (pref : String) (existing : List Reservation) (s : Int)
    (hpos : 1 ≤ sec.min_headway_minutes) :
    searchLoop sec train pref existing (s + 120) s searchFuel ≠ none ∧
    (∀ slot, searchLoop sec train pref existing (s + 120) s searchFuel = some (some slot) →
      s ≤ slot.arrival_time ∧ slot.arrival_time < s + 120) := by
  constructor
  · apply searchLoop_terminates sec train pref existing (s + 120) hpos
    show (s + 120 - s).toNat < searchFuel
    rw [show searchFuel = 121 from rfl]
    omega
  · intro slot h
    obtain ⟨h1, h2, _⟩ := searchLoop_probe_bounds sec train pref existing (s + 120)
      (by omega) searchFuel s slot h
    exact ⟨h1, h2⟩

/-- Witness for C9's amended statement with headway 5 and a blocking
reservation. -/
theorem scheduler_slot_search_terminates_witness :
    searchLoop sec1W tZ "S1" resZ (0 + 120) 0 searchFuel ≠ none :=
  (scheduler_slot_search_terminates sec1W tZ "S1" resZ 0 (by decide)).1

/-- With headway 0 and an unavailable desired interval the probe loop never
advances: it re-tests the same instant forever (Python divergence), whatever
iteration budget it is given. -/
theorem searchLoop_stuck_at_zero_headway (sec : Section) (train : Train)
    (pref : String) (existing : List Reservation) (maxT t : Int)
    (h0 : sec.min_headway_minutes = 0) (hlt : t < maxT)
    (hun : slotIsAvailable sec t (t + train.expected_travel_time) existing = false) :
    ∀ fuel, searchLoop sec train pref existing maxT t fuel = none := by
  intro fuel
  induction fuel with
  | zero => rfl
  | succ n ih =>
    unfold searchLoop
    rw [if_pos hlt]
    dsimp only
    rw [if_neg (by simp [hun]), h0, add_zero]
    exact ih

/-- C9 counterexample: with a zero minimum headway (the field is a plain int,
never validated) the probe loop makes no progress — even budgets of 1000 and
1000000 iterations are exhausted on the blocked interval, i.e. the Python loop
diverges. -/
theorem scheduler_slot_search_divergence_counterexample :
    searchLoop secH0 tZ "S1" resZ 120 0 1000 = none ∧
    searchLoop secH0 tZ "S1" resZ 120 0 1000000 = none :=
  ⟨searchLoop_stuck_at_zero_headway secH0 tZ "S1" resZ 120 0 rfl (by decide) (by decide) 1000,
   searchLoop_stuck_at_zero_headway secH0 tZ "S1" resZ 120 0 rfl (by decide) (by decide) 1000000⟩

/-- Each scheduler step can only increase the accumulated total delay. -/
theorem schedStep_total_delay_mono (sec : Section) (st : SchedState) (t : Train) :
    st.total_delay ≤ (schedStep sec st t).total_delay := by
  unfold schedStep
  cases findOptimalSlot sec t st.reservations with
  | none => dsimp only; omega
  | some slot =>
    dsimp only
    split <;> omega

/-- The accumulated total delay never decreases along the scheduling pass. -/
theorem foldl_total_delay_mono (sec : Section) (l : List Train) :
    ∀ st : SchedState, st.total_delay ≤ ((l.foldl (schedStep sec) st)).total_delay := by
  induction l with
  | nil => intro st; exact le_refl _
  | cons t ts ih =>
    intro st
    exact le_trans (schedStep_total_delay_mono sec st t) (ih (schedStep sec st t))

/-- The throughput-improvement formula always lands in [0, 100]. -/
theorem throughput_improvement_bounds (orig opt : List Train) :
    0 ≤ calculateThroughputImprovement orig opt ∧
    calculateThroughputImprovement orig opt ≤ 100 := by
  unfold calculateThroughputImprovement
  by_cases ho : (orig.filter (fun t => t.is_delayed)).length = 0
  · rw [if_pos ho]
    norm_num
  · rw [if_neg ho]
    constructor
    · exact le_max_left _ _
    · have hop : (0 : ℚ) < ((orig.filter (fun t => t.is_delayed)).length : ℚ) := by
        have := Nat.pos_of_ne_zero ho
        exact_mod_cast this
      have hp : (0 : ℚ) ≤ ((opt.filter (fun t => t.is_delayed)).length : ℚ) := by positivity
      apply max_le (by norm_num)
      have hdiv : (((orig.filter (fun t => t.is_delayed)).length : ℚ) -
          ((opt.filter (fun t => t.is_delayed)).length : ℚ)) /
          ((orig.filter (fun t => t.is_delayed)).length : ℚ) ≤ 1 := by
        rw [div_le_one hop]
        linarith
      calc (((orig.filter (fun t => t.is_delayed)).length : ℚ) -
            ((opt.filter (fun t => t.is_delayed)).length : ℚ)) /
            ((orig.filter (fun t => t.is_delayed)).length : ℚ) * 100
          ≤ 1 * 100 := by
            apply mul_le_mul_of_nonneg_right hdiv
            norm_num
        _ = 100 := by norm_num

/-- C8: optimize_schedule returns a nonnegative total delay and a throughput
improvement within [0, 100]; the improvement is 0 when no original train was
delayed, and otherwise equals max(0, (orig - opt) / orig * 100) over the
delayed-train counts taken with each train's own delayed predicate. -/
theorem scheduler_metrics_bounds (sec : Section) (trains : List Train)
    (conflicts : List Conflict) :
    0 ≤ (optimize_schedule sec trains conflicts).total_delay_minutes ∧
    0 ≤ (optimize_schedule sec trains conflicts).throughput_improvement ∧
    (optimize_schedule sec trains conflicts).throughput_improvement ≤ 100 ∧
    ((trains.filter (fun t => t.is_delayed)).length = 0 →
      (optimize_schedule sec trains conflicts).throughput_improvement = 0) ∧
    ((trains.filter (fun t => t.is_delayed)).length ≠ 0 →
      (optimize_schedule sec trains conflicts).throughput_improvement =
        max 0 ((((trains.filter (fun t => t.is_delayed)).length : ℚ) -
          ((((optimize_schedule sec trains conflicts).optimized_trains.filter
            (fun t => t.is_delayed)).length : ℚ))) /
          ((trains.filter (fun t => t.is_delayed)).length : ℚ) * 100)) := by
  refine ⟨?_, ?_, ?_, ?_, ?_⟩
  · show (0 : Int) ≤ (schedFinalState sec trains).total_delay
    have h := foldl_total_delay_mono sec (sortByPriorityDesc trains) initSchedState
    simpa [schedFinalState, initSchedState] using h
  · exact (throughput_improvement_bounds trains
      (schedFinalState sec trains).optimized_trains).1
  · exact (throughput_improvement_bounds trains
      (schedFinalState sec trains).optimized_trains).2
  · intro h0
    show calculateThroughputImprovement trains (schedFinalState sec trains).optimized_trains = 0
    unfold calculateThroughputImprovement
    rw [if_pos h0]
  · intro h0
    show calculateThroughputImprovement trains (schedFinalState sec trains).optimized_trains = _
    unfold calculateThroughputImprovement
    rw [if_neg h0]
    rfl

/-- Witness for C8 on a section with one segment and a single on-time train:
bounds hold and a delay-free input gives improvement 0. -/
theorem scheduler_metrics_bounds_witness :
    0 ≤ (optimize_schedule sec1W [tCap0] []).total_delay_minutes ∧
    (optimize_schedule sec1W [tCap0] []).throughput_improvement = 0 :=
  ⟨(scheduler_metrics_bounds sec1W [tCap0] []).1,
   (scheduler_metrics_bounds sec1W [tCap0] []).2.2.2.1 (by decide)⟩

/-- C2: any exception raised by conflict detection or scheduling is converted
at the optimize boundary into a structured result with status "error", the
exception message as error_message and the elapsed processing time; nothing is
propagated to the caller (the embedded boundary is a total function). -/
theorem optimize_converts_exceptions (sec : Section) (start_time elapsed : Int)
    (detectF : List Train → Except String (List Conflict))
    (schedF : List Train → List Conflict → Except String SchedResult)
    (history : List OptResult) (trains : List Train) (msg : String)
    (h : detectF trains = .error msg ∨
      ∃ cs, detectF trains = .ok cs ∧ cs ≠ [] ∧ schedF trains cs = .error msg) :
    (optimizeE sec start_time elapsed detectF schedF history trains).1.status = "error" ∧
    (optimizeE sec start_time elapsed detectF schedF history trains).1.error_message =
      some msg ∧
    (optimizeE sec start_time elapsed detectF schedF history trains).1.processing_time_ms =
      elapsed := by
  have hrun : runDetectSched detectF schedF trains = .error msg := by
    rcases h with h | ⟨cs, hok, hne, herr⟩
    · unfold runDetectSched
      rw [h]
    · have hie : cs.isEmpty = false := by
        cases cs with
        | nil => exact absurd rfl hne
        | cons a l => rfl
      unfold runDetectSched
      rw [hok]
      dsimp only
      rw [hie]
      simp only [Bool.false_eq_true, if_false]
      rw [herr]
  unfold optimizeE
  rw [hrun]
  exact ⟨rfl, rfl, rfl⟩

/-- Witness for C2: a raising detector yields the error result with its
message and the elapsed time. -/
theorem optimize_converts_exceptions_witness :
    (optimizeE sec1W 0 7 detectBoom schedBoom [] []).1.status = "error" ∧
    (optimizeE sec1W 0 7 detectBoom schedBoom [] []).1.error_message = some "boom" ∧
    (optimizeE sec1W 0 7 detectBoom schedBoom [] []).1.processing_time_ms = 7 :=
  optimize_converts_exceptions sec1W 0 7 detectBoom schedBoom [] [] "boom"
    (Or.inl rfl)

/-- Membership in the history after the cap-to-100 trim implies membership in
the untrimmed appended history. -/
theorem mem_capTrim {l : List OptResult} {x r : OptResult}
    (hr : r ∈ (if (l ++ [x]).length > 100 then
      (l ++ [x]).drop ((l ++ [x]).length - 100) else l ++ [x])) :
    r ∈ l ++ [x] := by
  by_cases h : (l ++ [x]).length > 100
  · rw [if_pos h] at hr
    exact List.drop_subset _ _ hr
  · rw [if_neg h] at hr
    exact hr

/-- C10: when optimize returns an error-status result the optimization history
is left exactly as it was, and the invariant that every stored history entry
has status "success" is preserved by every call. -/
theorem optimize_error_history_unchanged (sec : Section) (start_time elapsed : Int)
    (detectF : List Train → Except String (List Conflict))
    (schedF : List Train → List Conflict → Except String SchedResult)
    (history : List OptResult) (trains : List Train) :
    ((optimizeE sec start_time elapsed detectF schedF history trains).1.status = "error" →
      (optimizeE sec start_time elapsed detectF schedF history trains).2 = history) ∧
    ((∀ r ∈ history, r.status = "success") →
      ∀ r ∈ (optimizeE sec start_time elapsed detectF schedF history trains).2,
        r.status = "success") := by
  unfold optimizeE
  cases hrun : runDetectSched detectF schedF trains with
  | error msg => exact ⟨fun _ => rfl, fun hh => hh⟩
  | ok pr =>
    cases pr with
    | mk conflicts optres =>
      dsimp only
      constructor
      · intro hst
        exact absurd hst (by decide)
      · intro hh r hr
        have hmem := mem_capTrim hr
        rcases List.mem_append.mp hmem with h1 | h1
        · exact hh r h1
        · rw [List.mem_singleton] at h1
          subst h1
          rfl

/-- Witness for C10: a raising detector leaves the (empty) history unchanged,
and the all-success invariant holds of the updated history after a successful
call. -/
theorem optimize_error_history_unchanged_witness :
    (optimizeE sec1W 0 7 detectBoom schedBoom [] []).2 = [] ∧
    (∀ r ∈ (optimize sec1W 0 7 [] [tNoPos]).2, r.status = "success") :=
  ⟨(optimize_error_history_unchanged sec1W 0 7 detectBoom schedBoom [] []).1 rfl,
   (optimize_error_history_unchanged sec1W 0 7
      (fun ts => Except.ok (detect_conflicts sec1W ts))
      (fun ts cs => Except.ok (optimize_schedule sec1W ts cs)) [] [tNoPos]).2
     (by intro r hr; cases hr)⟩

/-- C7: when the detector returns no conflicts, optimize synthesizes the
trivial result without invoking the scheduler: one PROCEED recommendation per
input train, zero total delay and zero throughput improvement; the outcome is
independent of the scheduling function. -/
theorem optimize_no_conflicts_all_proceed (sec : Section) (start_time elapsed : Int)
    (history : List OptResult) (trains : List Train)
    (h : detect_conflicts sec trains = []) :
    (optimize sec start_time elapsed history trains).1.optimization_result =
      some (generateDefaultRecommendations trains) ∧
    (generateDefaultRecommendations trains).recommendations =
      trains.map defaultProceedRec ∧
    (∀ r ∈ (generateDefaultRecommendations trains).recommendations,
      r.action = RecAction.proceed) ∧
    (generateDefaultRecommendations trains).recommendations.length = trains.length ∧
    (generateDefaultRecommendations trains).total_delay_minutes = 0 ∧
    (generateDefaultRecommendations trains).throughput_improvement = 0 ∧
    (∀ schedF schedF' : List Train → List Conflict → Except String SchedResult,
      optimizeE sec start_time elapsed (fun ts => Except.ok (detect_conflicts sec ts))
        schedF history trains =
      optimizeE sec start_time elapsed (fun ts => Except.ok (detect_conflicts sec ts))
        schedF' history trains) := by
  have hrun : ∀ schedF : List Train → List Conflict → Except String SchedResult,
      runDetectSched (fun ts => Except.ok (detect_conflicts sec ts)) schedF trains =
        .ok ([], generateDefaultRecommendations trains) := by
    intro schedF
    unfold runDetectSched
    dsimp only
    rw [h]
    rfl
  refine ⟨?_, rfl, ?_, by simp [generateDefaultRecommendations], rfl, rfl, ?_⟩
  · show (optimizeE sec start_time elapsed _ _ history trains).1.optimization_result = _
    unfold optimizeE
    rw [hrun]
  · intro r hr
    simp only [generateDefaultRecommendations, List.mem_map] at hr
    obtain ⟨t, _, rfl⟩ := hr
    rfl
  · intro f g
    unfold optimizeE
    rw [hrun f, hrun g]

/-- Witness for C7: one unpositioned train produces no conflicts and the
trivial all-proceed result. -/
theorem optimize_no_conflicts_all_proceed_witness :
    (optimize sec1W 0 7 [] [tNoPos]).1.optimization_result =
      some (generateDefaultRecommendations [tNoPos]) ∧
    (generateDefaultRecommendations [tNoPos]).total_delay_minutes = 0 :=
  ⟨(optimize_no_conflicts_all_proceed sec1W 0 7 [] [tNoPos] (by decide)).1,
   (optimize_no_conflicts_all_proceed sec1W 0 7 [] [tNoPos] (by decide)).2.2.2.2.1⟩
